import Mathlib

/-!
Shallow embedding of the TextBox repository's model module:
`src/textbox/model/abstract_generator.py` and `src/textbox/model/Seq2Seq/t5.py`.

Python exceptions are modelled with `Except PyError`; tensors of token ids
are lists of naturals (one list per sequence, batch = list of sequences);
real-valued tensors are rationals.  The external HuggingFace library
(tokenizer, pretrained T5 network) is modelled abstractly: the tokenizer and
the network are parameters whose behaviour the repository's code does not
inspect, except for the documented contracts spelled out at each definition.
-/

namespace TextBox

/-- Python exceptions raised (or potentially raised) by the embedded code. -/
inductive PyError : Type where
  | notImplementedError (msg : String) : PyError
  | attributeError (attr : String) : PyError
  deriving DecidableEq, Repr

/-- The configuration dictionary, restricted to the keys the embedded code
reads (`config['...']` lookups in `abstract_generator.py` and `t5.py`). -/
structure Config where
  task_type : String
  train_batch_size : Nat
  device : String
  source_max_seq_length : Nat
  target_max_seq_length : Nat
  pretrained_model_path : String
  deriving DecidableEq, Repr

/-- The dataset object.  `abstract_generator.py` reads `idx2token`, and
probes `source_idx2token` / `target_idx2token` with `hasattr` / attribute
access; an attribute a concrete dataset lacks is `none` and reading it
raises `AttributeError`, as in Python. -/
structure Dataset where
  idx2token : List String
  source_idx2token : Option (List String)
  target_idx2token : Option (List String)
  deriving DecidableEq, Repr

/-- Python attribute read: `none` raises `AttributeError attr`. -/
def getattrOrRaise {α : Type} (attr : String) : Option α → Except PyError α
  | some v => .ok v
  | none => .error (.attributeError attr)

/-! ## abstract_generator.py: AbstractModel -/

/-- Embeds `AbstractModel.calculate_loss` — body is `raise NotImplementedError`. -/
def AbstractModel.calculate_loss {α β : Type} (_corpus : α) : Except PyError β :=
  .error (.notImplementedError "")

/-- Embeds `AbstractModel.generate` — body is `raise NotImplementedError`. -/
def AbstractModel.generate {α β : Type} (_corpus : α) : Except PyError β :=
  .error (.notImplementedError "")

/-- Embeds `AbstractModel.calculate_nll_test` — body is `raise NotImplementedError`. -/
def AbstractModel.calculate_nll_test {α β : Type} (_eval_data : α) : Except PyError β :=
  .error (.notImplementedError "")

/-! ## abstract_generator.py: UnconditionalGenerator -/

/-- The attributes set by `UnconditionalGenerator.__init__`. -/
structure UnconditionalGeneratorState where
  vocab_size : Nat
  batch_size : Nat
  device : String
  deriving DecidableEq, Repr

/-- Embeds `UnconditionalGenerator.__init__`: `vocab_size = len(dataset.idx2token)`,
`batch_size = config['train_batch_size']`, `device = config['device']`. -/
def UnconditionalGenerator.init (config : Config) (dataset : Dataset) :
    UnconditionalGeneratorState :=
  { vocab_size := dataset.idx2token.length
    batch_size := config.train_batch_size
    device := config.device }

/-! ## abstract_generator.py: Seq2SeqGenerator -/

/-- The attributes set by `Seq2SeqGenerator.__init__`.  The `hasattr`
branch sets either the source/target vocabulary sizes or `vocab_size`,
so each attribute is an `Option`. -/
structure Seq2SeqGeneratorState where
  source_vocab_size : Option Nat
  target_vocab_size : Option Nat
  vocab_size : Option Nat
  batch_size : Nat
  device : String
  deriving DecidableEq, Repr

/-- Embeds `Seq2SeqGenerator.__init__`: if `hasattr(dataset, "source_idx2token")`
then `source_vocab_size = len(dataset.source_idx2token)` and
`target_vocab_size = len(dataset.target_idx2token)` (the latter raising
`AttributeError` when absent), else `vocab_size = len(dataset.idx2token)`;
then `batch_size = config['train_batch_size']`, `device = config['device']`. -/
def Seq2SeqGenerator.init (config : Config) (dataset : Dataset) :
    Except PyError Seq2SeqGeneratorState :=
  match dataset.source_idx2token with
  | some src => do
      let tgt ← getattrOrRaise "target_idx2token" dataset.target_idx2token
      .ok { source_vocab_size := some src.length
            target_vocab_size := some tgt.length
            vocab_size := none
            batch_size := config.train_batch_size
            device := config.device }
  | none =>
      .ok { source_vocab_size := none
            target_vocab_size := none
            vocab_size := some dataset.idx2token.length
            batch_size := config.train_batch_size
            device := config.device }

/-! ## abstract_generator.py: GenerativeAdversarialNet -/

/-- Embeds `GenerativeAdversarialNet.calculate_g_train_loss` — body is
`raise NotImplementedError`. -/
def GenerativeAdversarialNet.calculate_g_train_loss {α β : Type} (_corpus : α) :
    Except PyError β :=
  .error (.notImplementedError "")

/-- Embeds `GenerativeAdversarialNet.calculate_d_train_loss` — body is
`raise NotImplementedError`. -/
def GenerativeAdversarialNet.calculate_d_train_loss {α β γ : Type}
    (_real_data : α) (_fake_data : β) : Except PyError γ :=
  .error (.notImplementedError "")

/-- Embeds `GenerativeAdversarialNet.calculate_g_adversarial_loss` — body is
`raise NotImplementedError`. -/
def GenerativeAdversarialNet.calculate_g_adversarial_loss {β : Type} :
    Except PyError β :=
  .error (.notImplementedError "")

/-- Embeds `GenerativeAdversarialNet.sample` — body is `raise NotImplementedError`. -/
def GenerativeAdversarialNet.sample {β : Type} (_sample_num : Nat) :
    Except PyError β :=
  .error (.notImplementedError "")

/-! ## t5.py: the external HuggingFace objects, modelled abstractly

The repository never inspects the tokenizer or the pretrained network; it
only calls them.  They are therefore parameters of the embedded T5 code. -/

/-- The keyword arguments passed to a tokenizer call in `t5.py`
(`max_length=...`, `padding=...`, `truncation=...`). -/
structure TokArgs where
  max_length : Nat
  padding : String
  truncation : Bool
  deriving DecidableEq, Repr

/-- Abstract `T5Tokenizer`.  `encode`/`encodeMask` give the `input_ids` /
`attention_mask` row produced by calling the tokenizer on one string with
the given keyword arguments; `decodeSkipSpecial` is decoding one output
row with `skip_special_tokens=True`. -/
structure Tokenizer where
  pad_token_id : Nat
  encode : String → TokArgs → List Nat
  encodeMask : String → TokArgs → List Nat
  decodeSkipSpecial : List Nat → String

/-- A batched tokenizer call on a list of strings.  With
`padding="max_length"` every row is padded to the same fixed length, so by
the HuggingFace contract the batched call encodes each string exactly as
the single-string call does. -/
def Tokenizer.batchEncode (tok : Tokenizer) (seqs : List String) (args : TokArgs) :
    List (List Nat) :=
  seqs.map fun s => tok.encode s args

/-- Abstract pretrained `T5ForConditionalGeneration` with logits of
abstract type `L` (one `L` value per decoder position, standing for the
vocabulary-sized logits row).  `gen ids maxLen` is `generate` on one
encoded sequence with `max_length=maxLen` and `early_stopping=True`; by
the HuggingFace contract a batched `generate` call processes each row of
the batch independently, so the batched call is modelled as a map of
`gen`.  `fwd input_ids attention_mask decoder_input_ids` gives the logits
`outputs.logits` of the forward call (with `use_cache=False`). -/
structure PretrainedT5 (L : Type) where
  gen : List Nat → Nat → List Nat
  fwd : List (List Nat) → List (List Nat) → List (List Nat) → List (List L)

/-! ## t5.py: T5 -/

/-- The attributes set by `T5.__init__` that the embedded methods read. -/
structure T5State where
  base : Seq2SeqGeneratorState
  max_source_length : Nat
  max_target_length : Nat
  padding_token_idx : Nat
  t5_task_text : String
  deriving DecidableEq, Repr

/-- Embeds `T5.__init__`: runs `Seq2SeqGenerator.__init__`, reads the two length
limits from the config, takes `padding_token_idx` from the tokenizer
(`from_pretrained` being external, the tokenizer is a parameter), and
dispatches on `config['task_type']`, raising `NotImplementedError` for any
task type other than `"summarization"` and `"translation"`. -/
def T5.init (config : Config) (dataset : Dataset) (tok : Tokenizer) :
    Except PyError T5State :=
  match Seq2SeqGenerator.init config dataset with
  | .error e => .error e
  | .ok base =>
    if config.task_type = "summarization" then
      .ok { base := base
            max_source_length := config.source_max_seq_length
            max_target_length := config.target_max_seq_length
            padding_token_idx := tok.pad_token_id
            t5_task_text := "summarize: " }
    else if config.task_type = "translation" then
      .ok { base := base
            max_source_length := config.source_max_seq_length
            max_target_length := config.target_max_seq_length
            padding_token_idx := tok.pad_token_id
            t5_task_text := "translate German to English: " }
    else
      .error (.notImplementedError "Only summarization and translation are supported.")

/-- Embeds `t5.py` line 49: `batch_sequences = [(self.t5_task_text + ' '.join(text)) for text in source_text]`. -/
def T5.generateBatchSequences (st : T5State) (source_text : List (List String)) :
    List String :=
  source_text.map fun text => st.t5_task_text ++ String.intercalate " " text

/-- Embeds `t5.py` line 71: `sequence = self.t5_task_text + ' '.join(text)`. -/
def T5.calculateIdsSequence (st : T5State) (text : List String) : String :=
  st.t5_task_text ++ String.intercalate " " text

/-- Python `str.lower()`, modelled on the basic latin range: each
character of the string is mapped through `Char.toLower` (codes 65..90
map to codes 97..122, all other characters are unchanged). -/
def pyLower (s : String) : String :=
  String.mk (s.toList.map Char.toLower)

/-- Worker for Python `str.split()` with no separator: scan the characters,
accumulating the current word reversed in `acc`; whitespace ends the
current word, empty words are dropped. -/
def pySplitGo : List Char → List Char → List (List Char)
  | [], acc => if acc.isEmpty then [] else [acc.reverse]
  | c :: cs, acc =>
    if c.isWhitespace then
      if acc.isEmpty then pySplitGo cs [] else acc.reverse :: pySplitGo cs []
    else
      pySplitGo cs (c :: acc)

/-- Python `str.split()` with no separator: split on runs of whitespace,
discarding empty pieces. -/
def pySplit (s : String) : List String :=
  (pySplitGo s.toList []).map fun cs => String.mk cs

/-- Embeds `t5.py` lines 44-65, `T5.generate`: for each batch of the eval
dataloader, build the prefixed sequences, tokenize them, run the
pretrained model's `generate`, decode skipping special tokens, lowercase
and whitespace-split each decoded string, and extend the corpus. -/
def T5.generate {L : Type} (st : T5State) (tok : Tokenizer) (net : PretrainedT5 L)
    (eval_dataloader : List (List (List String))) : List (List String) :=
  (eval_dataloader.map fun source_text =>
    let batch_sequences := T5.generateBatchSequences st source_text
    let batch_encoded_sequence := tok.batchEncode batch_sequences
      { max_length := st.max_source_length, padding := "max_length", truncation := true }
    let batch_outputs := batch_encoded_sequence.map fun ids => net.gen ids st.max_target_length
    let batch_decoded_sequence := batch_outputs.map tok.decodeSkipSpecial
    batch_decoded_sequence.map fun text => pySplit (pyLower text)).flatten

/-- Embeds `t5.py` lines 67-79, `T5.calculate_ids`: tokenize each source text
one at a time with the same keyword arguments, collecting `input_ids` and
`attention_mask` rows, then concatenate the rows into batch tensors. -/
def T5.calculate_ids (st : T5State) (tok : Tokenizer) (source_text : List (List String)) :
    List (List Nat) × List (List Nat) :=
  let rows := source_text.map fun text =>
    let sequence := T5.calculateIdsSequence st text
    let args : TokArgs :=
      { max_length := st.max_source_length, padding := "max_length", truncation := true }
    (tok.encode sequence args, tok.encodeMask sequence args)
  (rows.map Prod.fst, rows.map Prod.snd)

/-- The `input_ids` built by `T5.generate` for one batch (lines 49-57). -/
def T5.generateBatchInputIds (st : T5State) (tok : Tokenizer)
    (source_text : List (List String)) : List (List Nat) :=
  tok.batchEncode (T5.generateBatchSequences st source_text)
    { max_length := st.max_source_length, padding := "max_length", truncation := true }

/-- A training batch: `corpus['source_text']` and `corpus['target_text']`. -/
structure Corpus where
  source_text : List (List String)
  target_text : List (List String)

/-- Embeds `t5.py` line 87: `decoder_input_ids = target_ids[:, :-1]`, row by row. -/
def T5.decoderInputIds (target_ids : List (List Nat)) : List (List Nat) :=
  target_ids.map List.dropLast

/-- Embeds `t5.py` line 89: `decoder_target_ids = target_ids[:, 1:]`, row by row. -/
def T5.decoderTargetIds (target_ids : List (List Nat)) : List (List Nat) :=
  target_ids.map List.tail

/-- Embeds `t5.py` line 98, one row: `(row != padding_token_idx).sum()`, the
number of non-padding positions of the row. -/
def nonPadCount (pad : Nat) (row : List Nat) : Nat :=
  row.countP fun t => t != pad

/-- Embeds `nn.CrossEntropyLoss(ignore_index=pad, reduction='none')` on one
(logits row, target) pair: by the documented torch contract the entry is
`0` when the target equals `ignore_index`, and otherwise the per-row cross
entropy `ce logits target`, `ce` being abstract. -/
def crossEntropyNone {L : Type} (pad : Nat) (ce : L → Nat → ℚ) (logits : L)
    (target : Nat) : ℚ :=
  if target = pad then 0 else ce logits target

/-- Embeds `torch.Tensor.reshape_as` for a flat list, recovering the row shape of
the template: successive chunks of the template's row lengths. -/
def reshapeAs {α β : Type} : List (List α) → List β → List (List β)
  | [], _ => []
  | t :: ts, xs => xs.take t.length :: reshapeAs ts (xs.drop t.length)

/-- Embeds `torch.Tensor.mean()` of a vector. -/
def tensorMean (xs : List ℚ) : ℚ :=
  xs.sum / (xs.length : ℚ)

/-- The logits computed inside `T5.forward` (lines 84-95): `input_ids`
and `attention_masks` from `calculate_ids` on the source texts, the
teacher-forcing-shifted decoder inputs from `calculate_ids` on the target
texts, fed to the pretrained model's forward. -/
def T5.tokenLogits {L : Type} (st : T5State) (tok : Tokenizer) (net : PretrainedT5 L)
    (corpus : Corpus) : List (List L) :=
  net.fwd (T5.calculate_ids st tok corpus.source_text).fst
    (T5.calculate_ids st tok corpus.source_text).snd
    (T5.decoderInputIds (T5.calculate_ids st tok corpus.target_text).fst)

/-- Embeds `t5.py` lines 81-101, `T5.forward`: tokenize source and target texts
through `calculate_ids`, shift the target ids for teacher forcing, run
the pretrained model's forward, compute the flattened per-token cross
entropy (`view(-1, V)` / `view(-1)` = row-major flattening), reshape it
back to the shape of `decoder_target_ids`, normalize each row's sum by
its number of non-padding targets, and return the batch mean. -/
def T5.forward {L : Type} (st : T5State) (tok : Tokenizer) (net : PretrainedT5 L)
    (ce : L → Nat → ℚ) (corpus : Corpus) : ℚ :=
  let target_ids := (T5.calculate_ids st tok corpus.target_text).fst
  let decoder_target_ids := T5.decoderTargetIds target_ids
  let token_logits := T5.tokenLogits st tok net corpus
  let lossFlat := List.zipWith (crossEntropyNone st.padding_token_idx ce)
    token_logits.flatten decoder_target_ids.flatten
  let loss := reshapeAs decoder_target_ids lossFlat
  let length := decoder_target_ids.map fun row => ((nonPadCount st.padding_token_idx row : ℚ))
  tensorMean (List.zipWith (fun row len => row.sum / len) loss length)

/-- Spec-side per-sequence loss, written from the claim's words: the sum
of the per-token cross entropy over the shifted target positions, with
positions equal to the padding token id contributing zero, divided by the
number of non-padding positions of the shifted target. -/
def specSeqLoss {L : Type} (pad : Nat) (ce : L → Nat → ℚ) (logitsRow : List L)
    (targetRow : List Nat) : ℚ :=
  (List.zipWith (fun lg t => if t = pad then 0 else ce lg t) logitsRow targetRow).sum
    / (nonPadCount pad targetRow : ℚ)

/-! ## Concrete instances used by the witnesses -/

/-- A concrete configuration with a supported task type. -/
def cfg0 : Config :=
  { task_type := "summarization"
    train_batch_size := 8
    device := "cpu"
    source_max_seq_length := 4
    target_max_seq_length := 4
    pretrained_model_path := "t5-small" }

/-- A concrete dataset with source/target vocabularies. -/
def ds0 : Dataset :=
  { idx2token := ["a", "b"]
    source_idx2token := some ["s"]
    target_idx2token := some ["t", "u", "v"] }

/-- A concrete tokenizer: pad id 0, a fixed three-token row for every
string, all-ones mask, fixed decoded text. -/
def tok0 : Tokenizer :=
  { pad_token_id := 0
    encode := fun _ _ => [1, 2, 0]
    encodeMask := fun _ _ => [1, 1, 0]
    decodeSkipSpecial := fun _ => "AB cd" }

/-- A concrete pretrained network over the trivial logits type. -/
def net0 : PretrainedT5 Unit :=
  { gen := fun _ _ => [1, 2]
    fwd := fun _ _ dec => dec.map (List.map fun _ => ()) }

/-- A concrete per-row cross entropy over the trivial logits type. -/
def ce0 : Unit → Nat → ℚ :=
  fun _ t => (t : ℚ)

/-- The T5 state that `T5.init cfg0 ds0 tok0` produces. -/
def st0 : T5State :=
  { base :=
      { source_vocab_size := some 1
        target_vocab_size := some 3
        vocab_size := none
        batch_size := 8
        device := "cpu" }
    max_source_length := 4
    max_target_length := 4
    padding_token_idx := 0
    t5_task_text := "summarize: " }

/-- A concrete one-sequence training batch. -/
def corpus0 : Corpus :=
  { source_text := [["x"]]
    target_text := [["y"]] }

/-! ## Helper lemmas -/

/-- Applying `Char.ofNat` to a valid codepoint decodes back to the same `Nat`. -/
theorem toNat_ofNat_valid (m : Nat) (h : m.isValidChar) : (Char.ofNat m).toNat = m := by
  rw [Char.ofNat, dif_pos h]
  simp [Char.ofNatAux, Char.toNat, UInt32.toNat]

/-- Characterizes `Char.isUpper` in terms of the codepoint. -/
theorem isUpper_iff (c : Char) : c.isUpper = true ↔ (65 ≤ c.toNat ∧ c.toNat ≤ 90) := by
  simp [Char.isUpper, UInt32.le_def, BitVec.le_def, Char.toNat, UInt32.toNat]

/-- Lowercasing a character never yields an uppercase basic latin letter. -/
theorem toLower_isUpper_false (c : Char) : (Char.toLower c).isUpper = false := by
  unfold Char.toLower
  simp only []
  by_cases h : 65 ≤ c.toNat ∧ c.toNat ≤ 90
  case pos =>
    rw [if_pos h]
    have hv : (c.toNat + 32).isValidChar := Or.inl (by omega)
    have := toNat_ofNat_valid (c.toNat + 32) hv
    rw [Bool.eq_false_iff]
    intro hu
    rw [isUpper_iff] at hu
    omega
  case neg =>
    rw [if_neg h]
    rw [Bool.eq_false_iff]
    intro hu
    rw [isUpper_iff] at hu
    exact h ⟨hu.1, hu.2⟩

/-- Every character of every piece produced by `pySplitGo` is
non-whitespace and comes from the input or from the accumulator. -/
theorem pySplitGo_sound (cs : List Char) :
    ∀ acc : List Char, (∀ c ∈ acc, c.isWhitespace = false) →
      ∀ piece ∈ pySplitGo cs acc, ∀ c ∈ piece,
        c.isWhitespace = false ∧ (c ∈ cs ∨ c ∈ acc) := by
  induction cs with
  | nil =>
    intro acc hacc piece hp c hc
    unfold pySplitGo at hp
    by_cases he : acc.isEmpty
    · rw [if_pos he] at hp
      cases hp
    · rw [if_neg he] at hp
      rw [List.mem_singleton] at hp
      subst hp
      have hc' : c ∈ acc := List.mem_reverse.1 hc
      exact ⟨hacc c hc', Or.inr hc'⟩
  | cons d cs ih =>
    intro acc hacc piece hp c hc
    unfold pySplitGo at hp
    by_cases hd : d.isWhitespace
    · rw [if_pos hd] at hp
      by_cases he : acc.isEmpty
      · rw [if_pos he] at hp
        have := ih [] (by intro x hx; cases hx) piece hp c hc
        exact ⟨this.1, Or.inl (List.mem_cons_of_mem d (this.2.resolve_right (by intro hx; cases hx)))⟩
      · rw [if_neg he] at hp
        rcases List.mem_cons.1 hp with hp | hp
        · subst hp
          have hc' : c ∈ acc := List.mem_reverse.1 hc
          exact ⟨hacc c hc', Or.inr hc'⟩
        · have := ih [] (by intro x hx; cases hx) piece hp c hc
          exact ⟨this.1, Or.inl (List.mem_cons_of_mem d (this.2.resolve_right (by intro hx; cases hx)))⟩
    · rw [if_neg hd] at hp
      have hacc' : ∀ x ∈ d :: acc, x.isWhitespace = false := by
        intro x hx
        rcases List.mem_cons.1 hx with hx | hx
        · subst hx
          exact Bool.eq_false_iff.2 hd
        · exact hacc x hx
      have := ih (d :: acc) hacc' piece hp c hc
      refine ⟨this.1, ?_⟩
      rcases this.2 with h | h
      · exact Or.inl (List.mem_cons_of_mem d h)
      · rcases List.mem_cons.1 h with h | h
        · exact Or.inl (List.mem_cons.2 (Or.inl h))
        · exact Or.inr h

/-- Every word produced by lowercasing then whitespace-splitting a string
contains no whitespace character and no uppercase letter. -/
theorem pySplit_pyLower_clean (t : String) (w : String)
    (hw : w ∈ pySplit (pyLower t)) (c : Char) (hc : c ∈ w.toList) :
    c.isWhitespace = false ∧ c.isUpper = false := by
  unfold pySplit at hw
  rcases List.mem_map.1 hw with ⟨piece, hpiece, rfl⟩
  have hc' : c ∈ piece := hc
  have hs := pySplitGo_sound (pyLower t).toList [] (by intro x hx; cases hx)
    piece hpiece c hc'
  refine ⟨hs.1, ?_⟩
  rcases hs.2 with h | h
  · have h' : c ∈ t.toList.map Char.toLower := h
    rcases List.mem_map.1 h' with ⟨c0, _, rfl⟩
    exact toLower_isUpper_false c0
  · cases h

/-- Row-major flattening of a rowwise `zipWith`, when row lengths agree. -/
theorem zipWith_flatten_eq {α β γ : Type} (f : α → β → γ) :
    ∀ (as : List (List α)) (bs : List (List β)),
      as.map List.length = bs.map List.length →
      List.zipWith f as.flatten bs.flatten
        = (List.zipWith (List.zipWith f) as bs).flatten := by
  intro as
  induction as with
  | nil =>
    intro bs h
    cases bs with
    | nil => simp
    | cons b bs => simp at h
  | cons a as ih =>
    intro bs h
    cases bs with
    | nil => simp at h
    | cons b bs =>
      simp only [List.map_cons, List.cons.injEq] at h
      simp only [List.flatten_cons, List.zipWith_cons_cons]
      rw [List.zipWith_append _ _ _ _ _ h.1, ih bs h.2]

/-- Reshaping undoes flattening when the row lengths agree. -/
theorem reshapeAs_flatten {α β : Type} :
    ∀ (ts : List (List α)) (cs : List (List β)),
      cs.map List.length = ts.map List.length →
      reshapeAs ts cs.flatten = cs := by
  intro ts
  induction ts with
  | nil =>
    intro cs h
    cases cs with
    | nil => rfl
    | cons c cs => simp at h
  | cons t ts ih =>
    intro cs h
    cases cs with
    | nil => simp at h
    | cons c cs =>
      simp only [List.map_cons, List.cons.injEq] at h
      simp only [List.flatten_cons, reshapeAs]
      rw [List.take_left' h.1, List.drop_left' h.1, ih cs h.2]

/-- Row lengths of a rowwise `zipWith`, when row lengths agree. -/
theorem zipWith_zipWith_length {α β γ : Type} (f : α → β → γ) :
    ∀ (as : List (List α)) (bs : List (List β)),
      as.map List.length = bs.map List.length →
      (List.zipWith (List.zipWith f) as bs).map List.length = bs.map List.length := by
  intro as
  induction as with
  | nil =>
    intro bs h
    cases bs with
    | nil => rfl
    | cons b bs => simp at h
  | cons a as ih =>
    intro bs h
    cases bs with
    | nil => simp at h
    | cons b bs =>
      simp only [List.map_cons, List.cons.injEq] at h
      simp only [List.zipWith_cons_cons, List.map_cons, List.length_zipWith, h.1,
        Nat.min_self, List.cons.injEq]
      exact ⟨trivial, ih bs h.2⟩

/-- Dividing each reshaped row sum by its normalizer, rowwise. -/
theorem zipWith_rows_div {α β : Type} (f : α → β → ℚ) (g : List β → ℚ) :
    ∀ (as : List (List α)) (bs : List (List β)),
      List.zipWith (fun row len => row.sum / len)
          (List.zipWith (List.zipWith f) as bs) (bs.map g)
        = List.zipWith (fun a b => (List.zipWith f a b).sum / g b) as bs := by
  intro as
  induction as with
  | nil => intro bs; simp
  | cons a as ih =>
    intro bs
    cases bs with
    | nil => simp
    | cons b bs =>
      simp only [List.zipWith_cons_cons, List.map_cons]
      rw [ih bs]

/-- The flatten/reshape round trip of `T5.forward` computes the
per-sequence normalized losses, for any logits and shifted targets of
matching shape. -/
theorem forward_rows_general {α : Type} (pad : Nat) (ce : α → Nat → ℚ)
    (as : List (List α)) (bs : List (List Nat))
    (h : as.map List.length = bs.map List.length) :
    tensorMean (List.zipWith (fun row len => row.sum / len)
        (reshapeAs bs (List.zipWith (crossEntropyNone pad ce) as.flatten bs.flatten))
        (bs.map fun row => ((nonPadCount pad row : ℚ))))
      = tensorMean (List.zipWith (specSeqLoss pad ce) as bs) := by
  rw [zipWith_flatten_eq _ as bs h,
    reshapeAs_flatten bs _ (zipWith_zipWith_length _ as bs h),
    zipWith_rows_div]
  rfl

/-! ## Claim theorems -/

/-- Claim C6: For every input, the unoverridden abstract methods raise
`NotImplementedError`: `AbstractModel.calculate_loss`,
`AbstractModel.generate`, `AbstractModel.calculate_nll_test`, and the
`GenerativeAdversarialNet` methods `calculate_g_train_loss`,
`calculate_d_train_loss`, `calculate_g_adversarial_loss` and `sample` all
unconditionally raise `NotImplementedError`. -/
theorem abstract_methods_raise_notImplementedError {α β γ δ : Type}
    (corpus : α) (eval_data : α) (real_data : β) (fake_data : γ) (sample_num : Nat) :
    @AbstractModel.calculate_loss α δ corpus = .error (.notImplementedError "")
    ∧ @AbstractModel.generate α δ corpus = .error (.notImplementedError "")
    ∧ @AbstractModel.calculate_nll_test α δ eval_data = .error (.notImplementedError "")
    ∧ @GenerativeAdversarialNet.calculate_g_train_loss α δ corpus
        = .error (.notImplementedError "")
    ∧ @GenerativeAdversarialNet.calculate_d_train_loss β γ δ real_data fake_data
        = .error (.notImplementedError "")
    ∧ @GenerativeAdversarialNet.calculate_g_adversarial_loss δ
        = .error (.notImplementedError "")
    ∧ @GenerativeAdversarialNet.sample δ sample_num = .error (.notImplementedError "") :=
  ⟨rfl, rfl, rfl, rfl, rfl, rfl, rfl⟩

/-- Claim C5: The abstract base class constructors perform only attribute
initialization: `Seq2SeqGenerator.__init__` sets `batch_size` to
`config['train_batch_size']` and `device` to `config['device']`, and sets
`source_vocab_size` / `target_vocab_size` from the dataset's source/target
vocabularies when the dataset has a `source_idx2token` attribute,
otherwise sets `vocab_size` to `len(dataset.idx2token)`;
`UnconditionalGenerator.__init__` sets `vocab_size`, `batch_size` and
`device` analogously. -/
theorem abstract_generator_init_attributes (config : Config) (dataset : Dataset) :
    (∀ src tgt, dataset.source_idx2token = some src →
      dataset.target_idx2token = some tgt →
      Seq2SeqGenerator.init config dataset =
        .ok ⟨some src.length, some tgt.length, none,
          config.train_batch_size, config.device⟩)
    ∧ (dataset.source_idx2token = none →
      Seq2SeqGenerator.init config dataset =
        .ok ⟨none, none, some dataset.idx2token.length,
          config.train_batch_size, config.device⟩)
    ∧ UnconditionalGenerator.init config dataset =
        ⟨dataset.idx2token.length, config.train_batch_size, config.device⟩ := by
  refine ⟨?_, ?_, rfl⟩
  · intro src tgt hs ht
    simp only [Seq2SeqGenerator.init, hs, ht, getattrOrRaise]
    rfl
  · intro hs
    simp only [Seq2SeqGenerator.init, hs]

/-- Witness for C5 at `cfg0`, `ds0`. -/
theorem abstract_generator_init_attributes_w :
    Seq2SeqGenerator.init cfg0 ds0 = .ok ⟨some 1, some 3, none, 8, "cpu"⟩
    ∧ UnconditionalGenerator.init cfg0 ds0 = ⟨2, 8, "cpu"⟩ :=
  ⟨(abstract_generator_init_attributes cfg0 ds0).1 ["s"] ["t", "u", "v"] rfl rfl,
    (abstract_generator_init_attributes cfg0 ds0).2.2⟩

/-- Claim C2: When the base constructor succeeds, `T5.__init__` raises
`NotImplementedError` if and only if `config['task_type']` is neither
`"summarization"` nor `"translation"`; for the two supported task types
construction completes without raising this condition. -/
theorem T5_init_notImplementedError_iff (config : Config) (dataset : Dataset)
    (tok : Tokenizer) (bs : Seq2SeqGeneratorState)
    (hbase : Seq2SeqGenerator.init config dataset = .ok bs) :
    (∃ msg, T5.init config dataset tok = .error (.notImplementedError msg)) ↔
      (config.task_type ≠ "summarization" ∧ config.task_type ≠ "translation") := by
  unfold T5.init
  rw [hbase]
  by_cases h1 : config.task_type = "summarization"
  · simp [h1]
  · by_cases h2 : config.task_type = "translation"
    · simp [h1, h2]
    · simp [h1, h2]

/-- Witness for C2 at `cfg0`, `ds0`, `tok0`. -/
theorem T5_init_notImplementedError_iff_w :
    (∃ msg, T5.init cfg0 ds0 tok0 = .error (.notImplementedError msg)) ↔
      (cfg0.task_type ≠ "summarization" ∧ cfg0.task_type ≠ "translation") :=
  T5_init_notImplementedError_iff cfg0 ds0 tok0 ⟨some 1, some 3, none, 8, "cpu"⟩ rfl

/-- Claim C3: `T5.__init__` selects the task-prefix string as a function of
`config['task_type']`: exactly `"summarize: "` for `"summarization"` and
exactly `"translate German to English: "` for `"translation"`, and this
string is the one prepended to every input sequence built by both
`generate` (line 49) and `calculate_ids` (line 71). -/
theorem T5_init_task_text_selection (config : Config) (dataset : Dataset)
    (tok : Tokenizer) (st : T5State) (hok : T5.init config dataset tok = .ok st) :
    (config.task_type = "summarization" → st.t5_task_text = "summarize: ")
    ∧ (config.task_type = "translation" →
        st.t5_task_text = "translate German to English: ")
    ∧ (∀ text, T5.calculateIdsSequence st text
        = st.t5_task_text ++ String.intercalate " " text)
    ∧ (∀ source_text, T5.generateBatchSequences st source_text
        = source_text.map fun text => st.t5_task_text ++ String.intercalate " " text) := by
  refine ⟨?_, ?_, fun _ => rfl, fun _ => rfl⟩
  · intro h1
    unfold T5.init at hok
    split at hok
    · cases hok
    · rw [if_pos h1] at hok
      cases hok
      rfl
  · intro h2
    have h1 : config.task_type ≠ "summarization" := by
      intro h1
      rw [h1] at h2
      exact absurd h2 (by decide)
    unfold T5.init at hok
    split at hok
    · cases hok
    · rw [if_neg h1, if_pos h2] at hok
      cases hok
      rfl

/-- Witness for C3 at `cfg0`, `ds0`, `tok0`, `st0`. -/
theorem T5_init_task_text_selection_w :
    (cfg0.task_type = "summarization" → st0.t5_task_text = "summarize: ")
    ∧ (cfg0.task_type = "translation" →
        st0.t5_task_text = "translate German to English: ")
    ∧ (∀ text, T5.calculateIdsSequence st0 text
        = st0.t5_task_text ++ String.intercalate " " text)
    ∧ (∀ source_text, T5.generateBatchSequences st0 source_text
        = source_text.map fun text => st0.t5_task_text ++ String.intercalate " " text) :=
  T5_init_task_text_selection cfg0 ds0 tok0 st0 rfl

/-- Claim C7: `T5.generate` and `T5.calculate_ids` build the tokenizer input
identically: both construct the task text followed by the words joined
with single spaces, and both tokenize with the same `max_length`
(`max_source_length`), `padding="max_length"` and `truncation=True`, so
the two paths produce equal input token ids for the same source texts. -/
theorem T5_generate_calculate_ids_agree (st : T5State) (tok : Tokenizer)
    (source_text : List (List String)) :
    (T5.calculate_ids st tok source_text).fst
      = T5.generateBatchInputIds st tok source_text
    ∧ T5.generateBatchSequences st source_text
      = source_text.map (T5.calculateIdsSequence st) := by
  constructor
  · simp [T5.calculate_ids, T5.generateBatchInputIds, Tokenizer.batchEncode,
      T5.generateBatchSequences, T5.calculateIdsSequence]
  · simp [T5.generateBatchSequences, T5.calculateIdsSequence]

/-- Claim C1: For every training batch whose logits have one row per shifted
target position, `T5.forward` returns a length-normalized cross-entropy
loss: for each sequence it sums the per-token cross entropy over the
shifted target positions (positions equal to the padding token id
contributing zero via `ignore_index`), divides that sum by the number of
non-padding positions in the shifted target, and returns the mean of
these per-sequence values over the batch. -/
theorem T5_forward_length_normalized {L : Type} (st : T5State) (tok : Tokenizer)
    (net : PretrainedT5 L) (ce : L → Nat → ℚ) (corpus : Corpus)
    (hshape : (T5.tokenLogits st tok net corpus).map List.length
      = (T5.decoderTargetIds (T5.calculate_ids st tok corpus.target_text).fst).map
          List.length) :
    T5.forward st tok net ce corpus
      = tensorMean (List.zipWith (specSeqLoss st.padding_token_idx ce)
          (T5.tokenLogits st tok net corpus)
          (T5.decoderTargetIds (T5.calculate_ids st tok corpus.target_text).fst)) := by
  unfold T5.forward
  exact forward_rows_general st.padding_token_idx ce _ _ hshape

/-- Witness for C1 at the concrete instance. -/
theorem T5_forward_length_normalized_w :
    T5.forward st0 tok0 net0 ce0 corpus0
      = tensorMean (List.zipWith (specSeqLoss st0.padding_token_idx ce0)
          (T5.tokenLogits st0 tok0 net0 corpus0)
          (T5.decoderTargetIds (T5.calculate_ids st0 tok0 corpus0.target_text).fst)) :=
  T5_forward_length_normalized st0 tok0 net0 ce0 corpus0 (by decide)

/-- Claim C4: Every element of the corpus returned by `T5.generate` is a
decoded string (special tokens skipped) lowercased and split on
whitespace into word tokens, so every word in the returned corpus
contains no whitespace and no uppercase letters. -/
theorem T5_generate_words_clean {L : Type} (st : T5State) (tok : Tokenizer)
    (net : PretrainedT5 L) (eval_dataloader : List (List (List String)))
    (ws : List String) (hws : ws ∈ T5.generate st tok net eval_dataloader)
    (w : String) (hw : w ∈ ws) :
    (∃ ids, ws = pySplit (pyLower (tok.decodeSkipSpecial ids)))
    ∧ ∀ c ∈ w.toList, c.isWhitespace = false ∧ c.isUpper = false := by
  unfold T5.generate at hws
  rcases List.mem_flatten.1 hws with ⟨l, hl, hwsl⟩
  rcases List.mem_map.1 hl with ⟨batch, hbatch, rfl⟩
  rcases List.mem_map.1 hwsl with ⟨text, htext, rfl⟩
  rcases List.mem_map.1 htext with ⟨out, hout, rfl⟩
  refine ⟨⟨out, rfl⟩, ?_⟩
  intro c hc
  exact pySplit_pyLower_clean _ _ hw c hc

/-- Witness for C4 at the concrete instance. -/
theorem T5_generate_words_clean_w :
    (∃ ids, ["ab", "cd"] = pySplit (pyLower (tok0.decodeSkipSpecial ids)))
    ∧ ∀ c ∈ "ab".toList, c.isWhitespace = false ∧ c.isUpper = false :=
  T5_generate_words_clean st0 tok0 net0 [[["x"]]] ["ab", "cd"] (by decide)
    "ab" (by decide)

/-- Claim C8: `T5.forward` applies a one-position teacher-forcing shift: the
decoder input rows are exactly the first `L-1` target token ids
(`target_ids[:, :-1]`), the loss target rows are exactly the last `L-1`
target token ids (`target_ids[:, 1:]`), and at each position `i` the loss
target is the target token at position `i+1` while the decoder input is
the target token at position `i`. -/
theorem T5_forward_teacher_forcing_shift (target_ids : List (List Nat))
    (row : List Nat) (hrow : row ∈ target_ids) (i : Nat) (hi : i + 1 < row.length) :
    T5.decoderInputIds target_ids = target_ids.map (fun r => r.take (r.length - 1))
    ∧ T5.decoderTargetIds target_ids = target_ids.map (fun r => r.drop 1)
    ∧ (row.tail)[i]? = row[i + 1]?
    ∧ (row.dropLast)[i]? = row[i]? := by
  refine ⟨?_, ?_, ?_, ?_⟩
  · simp [T5.decoderInputIds, List.dropLast_eq_take]
  · simp [T5.decoderTargetIds, List.drop_one]
  · simp
  · rw [List.getElem?_dropLast, if_pos (by omega)]

/-- Witness for C8 at a concrete three-token row. -/
theorem T5_forward_teacher_forcing_shift_w :
    T5.decoderInputIds [[5, 6, 7]] = [[5, 6, 7]].map (fun r => r.take (r.length - 1))
    ∧ T5.decoderTargetIds [[5, 6, 7]] = [[5, 6, 7]].map (fun r => r.drop 1)
    ∧ (([5, 6, 7] : List Nat).tail)[0]? = ([5, 6, 7] : List Nat)[0 + 1]?
    ∧ (([5, 6, 7] : List Nat).dropLast)[0]? = ([5, 6, 7] : List Nat)[0]? :=
  T5_forward_teacher_forcing_shift [[5, 6, 7]] [5, 6, 7] (by decide) 0 (by decide)

/-- Claim C9: The per-sequence normalizer of `T5.forward` is zero exactly
when every shifted target position equals the padding token id, so the
per-sequence division divides by zero for such an input (for instance an
all-padding row); it is well-defined only when at least one shifted
target token differs from the padding token id. -/
theorem T5_forward_normalizer_zero_iff (pad : Nat) (row : List Nat) :
    (((nonPadCount pad row.tail : Nat) : ℚ) = 0 ↔ ∀ t ∈ row.tail, t = pad)
    ∧ (∀ q : ℚ, (∀ t ∈ row.tail, t = pad) →
        q / ((nonPadCount pad row.tail : ℚ)) = q / 0)
    ∧ nonPadCount pad (List.tail [pad, pad, pad]) = 0 := by
  have key : nonPadCount pad row.tail = 0 ↔ ∀ t ∈ row.tail, t = pad := by
    unfold nonPadCount
    rw [List.countP_eq_zero]
    constructor
    · intro h t ht
      have := h t ht
      simpa using this
    · intro h t ht
      simpa using h t ht
  refine ⟨?_, ?_, ?_⟩
  · rw [Nat.cast_eq_zero]
    exact key
  · intro q hall
    rw [Nat.cast_eq_zero.2 (key.2 hall)]
  · unfold nonPadCount
    simp

/-- Witness for C9 at pad id 0 and row `[1, 0, 0]` (shifted row `[0, 0]`,
entirely padding). -/
theorem T5_forward_normalizer_zero_iff_w :
    (((nonPadCount 0 ([1, 0, 0] : List Nat).tail : Nat) : ℚ) = 0 ↔
      ∀ t ∈ ([1, 0, 0] : List Nat).tail, t = 0)
    ∧ (∀ q : ℚ, (∀ t ∈ ([1, 0, 0] : List Nat).tail, t = 0) →
        q / ((nonPadCount 0 ([1, 0, 0] : List Nat).tail : ℚ)) = q / 0)
    ∧ nonPadCount 0 (List.tail [0, 0, 0]) = 0 :=
  T5_forward_normalizer_zero_iff 0 [1, 0, 0]

/-- Claim C10: `T5.generate` preserves cardinality and order: the returned
corpus is exactly the per-text generation pipeline mapped over the source
texts of all batches in order, so it has one entry per source text. -/
theorem T5_generate_cardinality_order {L : Type} (st : T5State) (tok : Tokenizer)
    (net : PretrainedT5 L) (eval_dataloader : List (List (List String))) :
    T5.generate st tok net eval_dataloader
      = eval_dataloader.flatten.map (fun text =>
          pySplit (pyLower (tok.decodeSkipSpecial (net.gen
            (tok.encode (st.t5_task_text ++ String.intercalate " " text)
              ⟨st.max_source_length, "max_length", true⟩) st.max_target_length))))
    ∧ (T5.generate st tok net eval_dataloader).length
        = eval_dataloader.flatten.length := by
  have hmain : T5.generate st tok net eval_dataloader
      = eval_dataloader.flatten.map (fun text =>
          pySplit (pyLower (tok.decodeSkipSpecial (net.gen
            (tok.encode (st.t5_task_text ++ String.intercalate " " text)
              ⟨st.max_source_length, "max_length", true⟩) st.max_target_length)))) := by
    unfold T5.generate
    rw [List.map_flatten]
    congr 1
    simp [T5.generateBatchSequences, Tokenizer.batchEncode, List.map_map,
      Function.comp]
  exact ⟨hmain, by rw [hmain, List.length_map]⟩

end TextBox
